import Mathlib

/-!
Verification development for the retail sales ETL pipeline
(`Retail_Sales_Analysis/process_data.py`).

The pipeline loads a CSV into an SQLite store (`create_database`), derives a
cleaned table with one SQL query (`clean_data`), computes five reporting views
(`generate_analytics`), exports them as one document (`export_to_json`), and
finally prints a summary that reads the first row of the category view.

Strings are modelled as lists of characters.  SQLite's `LOWER` lowercases
ASCII letters only; SQLite's `TRIM` strips the space character 0x20 from both
ends; SQLite's `LIKE` compares ASCII letters case-insensitively by default
(no `PRAGMA case_sensitive_like` is issued anywhere in the program), so
`order_date LIKE '%invalid%'` tests whether the ASCII-lowercased string
contains `invalid`.  Numeric SQL values are modelled as rationals, and
`ROUND(x, 2)` as rounding to the nearest multiple of 1/100.  SQL `NULL` is
modelled with `Option`.
-/

namespace RetailSales

/-- SQL text values: a string as a list of characters. -/
abbrev Str := List Char

/-- ASCII lowercasing of one character, as SQLite `LOWER` does per character. -/
def lowerChar (c : Char) : Char :=
  if 'A' ≤ c ∧ c ≤ 'Z' then Char.ofNat (c.toNat + 32) else c

/-- SQLite `LOWER`: ASCII-only lowercasing of a string. -/
def lowerStr (s : Str) : Str := s.map lowerChar

/-- Drop leading space characters (0x20), helper for SQLite `TRIM`. -/
def dropLeadingSpaces : Str → Str
  | [] => []
  | c :: cs => if c = Char.ofNat 32 then dropLeadingSpaces cs else c :: cs

/-- SQLite `TRIM`: strip space characters from both ends of the string. -/
def trimStr (s : Str) : Str :=
  (dropLeadingSpaces (dropLeadingSpaces s.reverse).reverse)

/-- Does the first list occur at the head of the second one? -/
def startsWithL : Str → Str → Bool
  | [], _ => true
  | _ :: _, [] => false
  | p :: ps, c :: cs => p = c && startsWithL ps cs

/-- Substring containment test. -/
def containsSub (pat : Str) : Str → Bool
  | [] => pat.isEmpty
  | c :: cs => startsWithL pat (c :: cs) || containsSub pat cs

/-- SQLite `order_date LIKE '%invalid%'`: `LIKE` is case-insensitive for
ASCII by default, so the test holds iff the ASCII-lowercased string contains
the lowercase pattern `invalid`. -/
def likeInvalid (s : Str) : Bool := containsSub "invalid".data (lowerStr s)

/-- One row of the `raw_sales` table, loaded verbatim from the CSV.
Text columns that the cleaning query probes for `NULL` are `Option`s. -/
structure RawRow where
  order_id : Int
  customer_id : Int
  customer_name : Option Str
  product_name : Str
  category : Option Str
  quantity : ℚ
  price : ℚ
  order_date : Option Str
  ship_date : Option Str
  region : Str
  payment_method : Str
deriving DecidableEq

/-- One row of the `cleaned_sales` table. -/
structure CleanedRow where
  order_id : Int
  customer_id : Int
  customer_name : Str
  product_name : Str
  category : Option Str
  quantity : ℚ
  price : ℚ
  order_date : Option Str
  ship_date : Option Str
  region : Str
  payment_method : Str
  total_amount : ℚ
deriving DecidableEq

/-- SQL `ROUND(x, 2)`: round to the nearest multiple of 1/100.  (The tie
direction at an exact half-cent is immaterial to every property below.) -/
def round2 (x : ℚ) : ℚ := ((⌊x * 100 + 1 / 2⌋ : ℤ) : ℚ) / 100

/-- The `CASE` expression on `customer_name`: the sentinel test
`customer_name = 'NULL' OR customer_name IS NULL` yields the default, and
only otherwise is the value trimmed. -/
def cleanCustomerName (c : Option Str) : Str :=
  match c with
  | none => "Unknown Customer".data
  | some s => if s = "NULL".data then "Unknown Customer".data else trimStr s

/-- The `CASE` expression on `category`: each branch compares
`LOWER(category)` with a lowercase canonical label; a `NULL` category
satisfies no branch (SQL three-valued logic) and falls through unchanged. -/
def cleanCategory (c : Option Str) : Option Str :=
  match c with
  | none => none
  | some s =>
    if lowerStr s = "electronics".data then some "Electronics".data
    else if lowerStr s = "furniture".data then some "Furniture".data
    else if lowerStr s = "stationery".data then some "Stationery".data
    else if lowerStr s = "office".data then some "Office".data
    else some s

/-- The `CASE` expression on `order_date`: a `NULL` date satisfies no `LIKE`
(SQL three-valued logic) and falls through as `NULL`. -/
def cleanOrderDate (c : Option Str) : Option Str :=
  match c with
  | none => none
  | some d => if likeInvalid d then none else some d

/-- The `CASE` expression on `ship_date`: `NULL` or the empty string becomes
`NULL`, anything else passes through. -/
def cleanShipDate (c : Option Str) : Option Str :=
  match c with
  | none => none
  | some d => if d = [] then none else some d

/-- The `SELECT` row transformation of the cleaning query in `clean_data`. -/
def cleanRow (r : RawRow) : CleanedRow where
  order_id := r.order_id
  customer_id := r.customer_id
  customer_name := cleanCustomerName r.customer_name
  product_name := trimStr r.product_name
  category := cleanCategory r.category
  quantity := |r.quantity|
  price := r.price
  order_date := cleanOrderDate r.order_date
  ship_date := cleanShipDate r.ship_date
  region := r.region
  payment_method := r.payment_method
  total_amount := round2 (|r.quantity| * r.price)

/-- The SQLite store: the `raw_sales` table and the `cleaned_sales` table
(`none` when the table does not exist). -/
structure Store where
  raw : List RawRow
  cleaned : Option (List CleanedRow)
deriving DecidableEq

/-- The Loader: `df.to_sql('raw_sales', conn, if_exists='replace')` replaces
the raw table with the source rows and leaves any other table alone. -/
def create_database (src : List RawRow) (s : Store) : Store :=
  { raw := src, cleaned := s.cleaned }

/-- The statement `DROP TABLE IF EXISTS cleaned_sales`. -/
def dropCleanedTable (s : Store) : Store :=
  { raw := s.raw, cleaned := none }

/-- The statement `CREATE TABLE IF NOT EXISTS cleaned_sales AS SELECT ...`:
a no-op when the cleaned table already exists, otherwise it materialises the
cleaning query over the raw table. -/
def createCleanedIfAbsent (s : Store) : Store :=
  match s.cleaned with
  | some _ => s
  | none => { raw := s.raw, cleaned := some (s.raw.map cleanRow) }

/-- The Cleaner `clean_data`: it first drops the cleaned table, then runs the
conditional create, so the create always fires. -/
def clean_data (s : Store) : Store :=
  createCleanedIfAbsent (dropCleanedTable s)

/-- One row of the category-performance query. -/
structure CategoryRow where
  category : Option Str
  total_orders : Nat
  total_units_sold : ℚ
  total_revenue : ℚ
  avg_order_value : ℚ
deriving DecidableEq

/-- One row of the regional-performance query. -/
structure RegionalRow where
  region : Str
  total_orders : Nat
  total_revenue : ℚ
  unique_customers : Nat
deriving DecidableEq

/-- One row of the daily-sales query. -/
structure DailyRow where
  order_date : Str
  orders : Nat
  revenue : ℚ
deriving DecidableEq

/-- One row of the top-products query. -/
structure ProductRow where
  product_name : Str
  category : Option Str
  units_sold : ℚ
  revenue : ℚ
deriving DecidableEq

/-- The single row of the summary query.  SQL `SUM` and `AVG` over an empty
table are `NULL`; pandas surfaces that `NULL`, so the revenue fields are
`Option`s while the two `COUNT` columns are plain numbers. -/
structure SummaryRow where
  total_revenue : Option ℚ
  total_orders : Nat
  total_customers : Nat
  avg_order_value : Option ℚ
deriving DecidableEq

/-- Descending order on a rational measure, as in `ORDER BY revenue DESC`. -/
def descBy {α : Type} (f : α → ℚ) : α → α → Prop :=
  fun a b => f b ≤ f a

instance {α : Type} (f : α → ℚ) : DecidableRel (descBy f) :=
  fun a b => inferInstanceAs (Decidable (f b ≤ f a))

instance {α : Type} (f : α → ℚ) : IsTotal α (descBy f) :=
  ⟨fun a b => le_total (f b) (f a)⟩

instance {α : Type} (f : α → ℚ) : IsTrans α (descBy f) :=
  ⟨fun _ _ _ h1 h2 => le_trans h2 h1⟩

/-- Byte-order comparison of two strings, as SQLite compares text with the
default `BINARY` collation in `ORDER BY order_date`. -/
def strLe : Str → Str → Bool
  | [], _ => true
  | _ :: _, [] => false
  | a :: as, b :: bs =>
    if a.toNat < b.toNat then true
    else if b.toNat < a.toNat then false
    else strLe as bs

/-- Ascending order on a string measure, as in `ORDER BY order_date`. -/
def ascByStr {α : Type} (f : α → Str) : α → α → Prop :=
  fun a b => strLe (f a) (f b) = true

instance {α : Type} (f : α → Str) : DecidableRel (ascByStr f) :=
  fun a b => inferInstanceAs (Decidable (strLe (f a) (f b) = true))

/-- GROUP BY keys of a query: the distinct key values, in first-appearance
order.  SQL `GROUP BY` treats two `NULL`s as the same group, which the
`Option` key type reproduces. -/
def groupKeys {K : Type} [DecidableEq K] (f : CleanedRow → K)
    (ct : List CleanedRow) : List K :=
  (ct.map f).dedup

/-- The rows of one group. -/
def rowsWhere {K : Type} [DecidableEq K] (f : CleanedRow → K) (k : K)
    (ct : List CleanedRow) : List CleanedRow :=
  ct.filter (fun r => decide (f r = k))

/-- SQL `SUM` of a numeric expression over a list of rows. -/
def sumBy (g : CleanedRow → ℚ) (l : List CleanedRow) : ℚ :=
  (l.map g).sum

/-- SQL `COUNT(DISTINCT customer_id)`. -/
def distinctCustomerCount (l : List CleanedRow) : Nat :=
  ((l.map (fun r => r.customer_id)).dedup).length

/-- One output row of the category-performance query for one group key. -/
def mkCategoryRow (ct : List CleanedRow) (k : Option Str) : CategoryRow :=
  { category := k
    total_orders := (rowsWhere (fun r => r.category) k ct).length
    total_units_sold := sumBy (fun r => r.quantity) (rowsWhere (fun r => r.category) k ct)
    total_revenue := round2 (sumBy (fun r => r.total_amount) (rowsWhere (fun r => r.category) k ct))
    avg_order_value :=
      round2 (sumBy (fun r => r.total_amount) (rowsWhere (fun r => r.category) k ct)
        / (rowsWhere (fun r => r.category) k ct).length) }

/-- The category-performance view: `GROUP BY category ORDER BY total_revenue DESC`. -/
def categoryView (ct : List CleanedRow) : List CategoryRow :=
  List.insertionSort (descBy (fun r => r.total_revenue))
    ((groupKeys (fun r => r.category) ct).map (mkCategoryRow ct))

/-- One output row of the regional-performance query for one group key. -/
def mkRegionalRow (ct : List CleanedRow) (k : Str) : RegionalRow :=
  { region := k
    total_orders := (rowsWhere (fun r => r.region) k ct).length
    total_revenue := round2 (sumBy (fun r => r.total_amount) (rowsWhere (fun r => r.region) k ct))
    unique_customers := distinctCustomerCount (rowsWhere (fun r => r.region) k ct) }

/-- The regional-performance view: `GROUP BY region ORDER BY total_revenue DESC`. -/
def regionalView (ct : List CleanedRow) : List RegionalRow :=
  List.insertionSort (descBy (fun r => r.total_revenue))
    ((groupKeys (fun r => r.region) ct).map (mkRegionalRow ct))

/-- One output row of the daily-sales query for one non-null order date. -/
def mkDailyRow (ct : List CleanedRow) (k : Str) : DailyRow :=
  { order_date := k
    orders := (rowsWhere (fun r => r.order_date) (some k) ct).length
    revenue := round2 (sumBy (fun r => r.total_amount) (rowsWhere (fun r => r.order_date) (some k) ct)) }

/-- The daily-sales view: `WHERE order_date IS NOT NULL GROUP BY order_date
ORDER BY order_date`. -/
def dailyView (ct : List CleanedRow) : List DailyRow :=
  List.insertionSort (ascByStr (fun r => r.order_date))
    (((ct.filterMap (fun r => r.order_date)).dedup).map (mkDailyRow ct))

/-- One output row of the top-products query for one (product, category) key. -/
def mkProductRow (ct : List CleanedRow) (k : Str × Option Str) : ProductRow :=
  { product_name := k.1
    category := k.2
    units_sold := sumBy (fun r => r.quantity) (rowsWhere (fun r => (r.product_name, r.category)) k ct)
    revenue := round2 (sumBy (fun r => r.total_amount) (rowsWhere (fun r => (r.product_name, r.category)) k ct)) }

/-- The top-products view: `GROUP BY product_name, category ORDER BY revenue
DESC LIMIT 10`. -/
def productView (ct : List CleanedRow) : List ProductRow :=
  (List.insertionSort (descBy (fun r => r.revenue))
    ((groupKeys (fun r => (r.product_name, r.category)) ct).map (mkProductRow ct))).take 10

/-- The summary query.  Over an empty table `SUM` and `AVG` are `NULL` and
the counts are 0. -/
def summaryView (ct : List CleanedRow) : SummaryRow :=
  match ct with
  | [] => { total_revenue := none, total_orders := 0, total_customers := 0, avg_order_value := none }
  | _ :: _ =>
    { total_revenue := some (round2 (sumBy (fun r => r.total_amount) ct))
      total_orders := ct.length
      total_customers := distinctCustomerCount ct
      avg_order_value := some (round2 (sumBy (fun r => r.total_amount) ct / ct.length)) }

/-- The five dataframes returned by `generate_analytics`. -/
structure Analytics where
  category : List CategoryRow
  regional : List RegionalRow
  daily : List DailyRow
  product : List ProductRow
  summary : SummaryRow
deriving DecidableEq

/-- The function `generate_analytics`: five read-only queries against
`cleaned_sales`; an `sqlite3.OperationalError` if the table is missing. -/
def generate_analytics (s : Store) : Except String Analytics :=
  match s.cleaned with
  | none => Except.error "no such table: cleaned_sales"
  | some ct =>
    Except.ok
      { category := categoryView ct
        regional := regionalView ct
        daily := dailyView ct
        product := productView ct
        summary := summaryView ct }

/-- The `summary` object of the exported document.  The revenue fields are
plain numbers: `export_to_json` only produces a document when both `float()`
conversions succeeded. -/
structure OutSummary where
  total_revenue : ℚ
  total_orders : Nat
  total_customers : Nat
  avg_order_value : ℚ
deriving DecidableEq

/-- The document written to `dashboard_data.json`. -/
structure OutDoc where
  summary : OutSummary
  category : List CategoryRow
  regional : List RegionalRow
  daily : List DailyRow
  product : List ProductRow
deriving DecidableEq

/-- Python `float()` applied to a summary aggregate.  pandas returns an
all-`NULL` aggregate column as the Python object `None`, and `float(None)`
raises `TypeError`; on a number the conversion succeeds. -/
def floatOfSql (v : Option ℚ) : Except String ℚ :=
  match v with
  | none =>
    Except.error "TypeError: float() argument must be a string or a number, not NoneType"
  | some q => Except.ok q

/-- The function `export_to_json`: convert the summary fields (the two
`float()` calls raise `TypeError` on the `None` aggregates of an empty
table, before the output file is opened), then serialize the five views
into one document, each list in the order its query produced. -/
def export_to_json (a : Analytics) : Except String OutDoc :=
  match floatOfSql a.summary.total_revenue with
  | Except.error e => Except.error e
  | Except.ok tr =>
    match floatOfSql a.summary.avg_order_value with
    | Except.error e => Except.error e
    | Except.ok av =>
      Except.ok
        { summary :=
            { total_revenue := tr
              total_orders := a.summary.total_orders
              total_customers := a.summary.total_customers
              avg_order_value := av }
          category := a.category
          regional := a.regional
          daily := a.daily
          product := a.product }

/-- Outcome of one run of the `__main__` block: the document written to the
output file (if the run got that far) and the unhandled exception (if any). -/
structure RunResult where
  written : Option OutDoc
  error : Option String
deriving DecidableEq

/-- The `__main__` block: load, clean, aggregate, export, then print the
summary.  When `export_to_json` raises (the `float(None)` `TypeError` on an
empty table) nothing is written.  After a successful export, the final
print reads `analytics['category'].iloc[0]`, which raises `IndexError` when
the category view is empty. -/
def main_run (src : List RawRow) (s : Store) : RunResult :=
  match generate_analytics (clean_data (create_database src s)) with
  | Except.error e => { written := none, error := some e }
  | Except.ok a =>
    match export_to_json a with
    | Except.error e => { written := none, error := some e }
    | Except.ok doc =>
      match a.category with
      | [] =>
        { written := some doc
          error := some "IndexError: single positional indexer is out-of-bounds" }
      | _ :: _ => { written := some doc, error := none }

/-- A well-formed sample transaction used to instantiate concrete inputs. -/
def baseRaw : RawRow where
  order_id := 1
  customer_id := 101
  customer_name := some "Alice".data
  product_name := "Laptop".data
  category := some "Electronics".data
  quantity := 1
  price := 100
  order_date := some "2024-01-05".data
  ship_date := some "2024-01-07".data
  region := "North".data
  payment_method := "Card".data

/-- A raw row whose order date contains `INVALID` in upper case. -/
def rowInvalidUpper : RawRow :=
  { baseRaw with order_date := some "2024-01-05-INVALID".data }

/-- A raw row whose order date contains `Invalid` in mixed case. -/
def rowInvalidMixed : RawRow :=
  { baseRaw with order_date := some "2024-Invalid".data }

/-- A raw row with a negative unit price. -/
def rowNegPrice : RawRow :=
  { baseRaw with quantity := 1, price := -10 }

/-- A raw row whose customer name is the sentinel surrounded by spaces. -/
def rowSpacedNull : RawRow :=
  { baseRaw with customer_name := some "  NULL  ".data }

/-- A raw row with a `NULL` category. -/
def rowNullCategory : RawRow :=
  { baseRaw with category := none }

/-- A rational that is a whole number of hundredths, the shape of every
`ROUND(x, 2)` result. -/
def centQ (x : ℚ) : Prop := ∃ n : ℤ, x = (n : ℚ) / 100

lemma centQ_round2 (x : ℚ) : centQ (round2 x) :=
  ⟨⌊x * 100 + 1 / 2⌋, rfl⟩

lemma round2_of_centQ {x : ℚ} (h : centQ x) : round2 x = x := by
  obtain ⟨n, rfl⟩ := h
  unfold round2
  rw [div_mul_cancel₀ _ (by norm_num : (100 : ℚ) ≠ 0), Int.floor_int_add]
  norm_num

lemma centQ_add {x y : ℚ} (hx : centQ x) (hy : centQ y) : centQ (x + y) := by
  obtain ⟨a, rfl⟩ := hx
  obtain ⟨b, rfl⟩ := hy
  exact ⟨a + b, by push_cast; ring⟩

lemma centQ_sum {l : List ℚ} (h : ∀ x ∈ l, centQ x) : centQ l.sum := by
  induction l with
  | nil => exact ⟨0, by norm_num⟩
  | cons a l ih =>
    simp only [List.sum_cons]
    exact centQ_add (h a (by simp)) (ih fun x hx => h x (by simp [hx]))

lemma centQ_sumBy {ct : List CleanedRow} (h : ∀ r ∈ ct, centQ r.total_amount) :
    centQ (sumBy (fun r => r.total_amount) ct) := by
  apply centQ_sum
  intro x hx
  rcases List.mem_map.mp hx with ⟨r, hr, rfl⟩
  exact h r hr

lemma round2_nonneg {x : ℚ} (hx : 0 ≤ x) : 0 ≤ round2 x := by
  unfold round2
  have h1 : (0 : ℤ) ≤ ⌊x * 100 + 1 / 2⌋ := by
    rw [Int.le_floor]
    push_cast
    nlinarith
  have h2 : (0 : ℚ) ≤ ((⌊x * 100 + 1 / 2⌋ : ℤ) : ℚ) := by exact_mod_cast h1
  exact div_nonneg h2 (by norm_num)

lemma sum_map_ite_zero {K : Type} [DecidableEq K] (a : K) (c : ℚ)
    (ks : List K) (h : a ∉ ks) :
    (ks.map fun k => if a = k then c else 0).sum = 0 := by
  induction ks with
  | nil => rfl
  | cons k ks ih =>
    have hak : a ≠ k := by
      intro e
      exact h (by simp [e])
    have hm : a ∉ ks := fun hmm => h (by simp [hmm])
    simp [hak, ih hm]

lemma sum_map_ite_key {K : Type} [DecidableEq K] (a : K) (c : ℚ)
    (ks : List K) (hnd : ks.Nodup) (ha : a ∈ ks) :
    (ks.map fun k => if a = k then c else 0).sum = c := by
  induction ks with
  | nil => cases ha
  | cons k ks ih =>
    rcases List.mem_cons.mp ha with he | hm
    · subst he
      have hnotin : a ∉ ks := (List.nodup_cons.mp hnd).1
      simp [sum_map_ite_zero a c ks hnotin]
    · have hak : a ≠ k := by
        intro e
        subst e
        exact (List.nodup_cons.mp hnd).1 hm
      simp [hak, ih (List.nodup_cons.mp hnd).2 hm]

lemma sum_map_filter_group {α K : Type} [DecidableEq K] (f : α → K) (g : α → ℚ)
    (rows : List α) (ks : List K) (hnd : ks.Nodup) (hmem : ∀ r ∈ rows, f r ∈ ks) :
    (ks.map fun k => ((rows.filter fun r => decide (f r = k)).map g).sum).sum
      = (rows.map g).sum := by
  induction rows with
  | nil => simp
  | cons x rs ih =>
    have hsplit : ∀ k : K,
        (((x :: rs).filter fun r => decide (f r = k)).map g).sum
          = (if f x = k then g x else 0)
            + ((rs.filter fun r => decide (f r = k)).map g).sum := by
      intro k
      by_cases hx : f x = k
      · simp [List.filter_cons, hx]
      · simp [List.filter_cons, hx]
    calc (ks.map fun k => (((x :: rs).filter fun r => decide (f r = k)).map g).sum).sum
        = (ks.map fun k =>
            (if f x = k then g x else 0)
              + ((rs.filter fun r => decide (f r = k)).map g).sum).sum := by
          rw [List.map_congr_left fun k _ => hsplit k]
      _ = (ks.map fun k => if f x = k then g x else 0).sum
            + (ks.map fun k => ((rs.filter fun r => decide (f r = k)).map g).sum).sum := by
          rw [List.sum_map_add]
      _ = g x + (rs.map g).sum := by
          rw [sum_map_ite_key (f x) (g x) ks hnd (hmem x (by simp)),
            ih fun r hr => hmem r (by simp [hr])]
      _ = ((x :: rs).map g).sum := by simp

lemma sum_insertionSort_map {α : Type} (r : α → α → Prop) [DecidableRel r]
    (g : α → ℚ) (l : List α) :
    ((List.insertionSort r l).map g).sum = (l.map g).sum :=
  ((List.perm_insertionSort r l).map g).sum_eq

lemma sum_round2_groups {K : Type} [DecidableEq K] (f : CleanedRow → K)
    (ct : List CleanedRow) (hcent : ∀ r ∈ ct, centQ r.total_amount) :
    ((groupKeys f ct).map fun k =>
        round2 (sumBy (fun r => r.total_amount) (rowsWhere f k ct))).sum
      = sumBy (fun r => r.total_amount) ct := by
  have hpt : ∀ k : K,
      round2 (sumBy (fun r => r.total_amount) (rowsWhere f k ct))
        = sumBy (fun r => r.total_amount) (rowsWhere f k ct) := by
    intro k
    apply round2_of_centQ
    apply centQ_sumBy
    intro x hx
    exact hcent x (List.mem_of_mem_filter hx)
  rw [List.map_congr_left fun k _ => hpt k]
  exact sum_map_filter_group f (fun r => r.total_amount) ct (groupKeys f ct)
    (List.nodup_dedup _) fun r hr => List.mem_dedup.mpr (List.mem_map_of_mem f hr)

lemma categoryView_revenue_sum (ct : List CleanedRow)
    (hcent : ∀ r ∈ ct, centQ r.total_amount) :
    ((categoryView ct).map fun r => r.total_revenue).sum
      = sumBy (fun r => r.total_amount) ct := by
  unfold categoryView
  rw [sum_insertionSort_map, List.map_map]
  exact sum_round2_groups (fun r => r.category) ct hcent

lemma regionalView_revenue_sum (ct : List CleanedRow)
    (hcent : ∀ r ∈ ct, centQ r.total_amount) :
    ((regionalView ct).map fun r => r.total_revenue).sum
      = sumBy (fun r => r.total_amount) ct := by
  unfold regionalView
  rw [sum_insertionSort_map, List.map_map]
  exact sum_round2_groups (fun r => r.region) ct hcent

/-- C1 (counterexample): a raw order date containing upper-case `INVALID` is
nulled by the Cleaner even though it does not contain the lowercase substring
`invalid`, because SQLite `LIKE` matches ASCII case-insensitively.  This
refutes the claim that such a date passes through unchanged. -/
theorem order_date_upper_invalid_nulled :
    (cleanRow rowInvalidUpper).order_date = none
    ∧ containsSub "invalid".data "2024-01-05-INVALID".data = false := by
  decide

/-- C1 (amended): the Cleaner sets the cleaned order date to null exactly
when the raw order date contains the substring `invalid` matched
case-insensitively over ASCII letters; otherwise it passes through
unchanged. -/
theorem order_date_nulled_iff_insensitive (r : RawRow) (d : Str)
    (h : r.order_date = some d) :
    ((cleanRow r).order_date = none
      ↔ containsSub "invalid".data (lowerStr d) = true)
    ∧ (containsSub "invalid".data (lowerStr d) = false
      → (cleanRow r).order_date = some d) := by
  have hc : (cleanRow r).order_date = cleanOrderDate r.order_date := rfl
  rw [hc, h]
  cases hb : containsSub "invalid".data (lowerStr d) with
  | true => simp [cleanOrderDate, likeInvalid, hb]
  | false => simp [cleanOrderDate, likeInvalid, hb]

/-- C1 (witness): the amended rule instantiated on a mixed-case date. -/
theorem order_date_nulled_iff_insensitive_witness :
    (((cleanRow rowInvalidMixed).order_date = none
      ↔ containsSub "invalid".data (lowerStr "2024-Invalid".data) = true)
    ∧ (containsSub "invalid".data (lowerStr "2024-Invalid".data) = false
      → (cleanRow rowInvalidMixed).order_date = some "2024-Invalid".data)) :=
  order_date_nulled_iff_insensitive rowInvalidMixed "2024-Invalid".data rfl

/-- C2: on an empty source (no data rows) the aggregates do come out with
`total_orders = 0`, all four list views empty and `NULL` revenue summary
fields — but the run then dies with an unhandled `TypeError` when
`export_to_json` applies `float()` to the `None` summary aggregate, before
the output file is opened, so no document is written at all. -/
theorem empty_input_crashes_in_export :
    main_run [] { raw := [], cleaned := none } =
      { written := none
        error := some "TypeError: float() argument must be a string or a number, not NoneType" }
    ∧ generate_analytics (clean_data (create_database [] { raw := [], cleaned := none }))
        = Except.ok
          { category := [], regional := [], daily := [], product := []
            summary :=
              { total_revenue := none, total_orders := 0
                total_customers := 0, avg_order_value := none } } :=
  ⟨rfl, rfl⟩

/-- C3 (counterexample): a raw row with price −10 and quantity 1 cleans to a
negative `total_amount`, refuting the claim that `total_amount ≥ 0` for all
raw inputs including negative prices — `ABS` is applied to the quantity
only. -/
theorem negative_price_negative_total :
    (cleanRow rowNegPrice).total_amount < 0 := by
  have h : (cleanRow rowNegPrice).total_amount = round2 (|(1 : ℚ)| * (-10)) := rfl
  rw [h]
  simp [round2]
  norm_num

/-- C3 (amended): every cleaned row has
`total_amount = round2 (|quantity| * price)`, and `total_amount ≥ 0` holds
whenever the raw price is non-negative. -/
theorem total_amount_formula_nonneg (r : RawRow) :
    (cleanRow r).total_amount = round2 (|r.quantity| * r.price)
    ∧ (0 ≤ r.price → 0 ≤ (cleanRow r).total_amount) := by
  refine ⟨rfl, fun hp => ?_⟩
  have h0 : 0 ≤ |r.quantity| * r.price := mul_nonneg (abs_nonneg _) hp
  exact round2_nonneg h0

/-- C3 (witness): the amended property instantiated on a concrete row. -/
theorem total_amount_formula_nonneg_witness :
    (cleanRow baseRaw).total_amount = round2 (|baseRaw.quantity| * baseRaw.price)
    ∧ 0 ≤ (cleanRow baseRaw).total_amount :=
  ⟨(total_amount_formula_nonneg baseRaw).1,
    (total_amount_formula_nonneg baseRaw).2 (by decide)⟩

/-- C4: the Cleaner always recreates the cleaned table from the raw table —
the preceding `DROP TABLE IF EXISTS` makes the conditional `CREATE` fire on
every run, so the cleaned table has exactly one row per raw row regardless
of any pre-existing cleaned table in the store. -/
theorem clean_data_recreates_cleaned (s : Store) :
    (clean_data s).cleaned = some (s.raw.map cleanRow)
    ∧ (s.raw.map cleanRow).length = s.raw.length :=
  ⟨rfl, by simp⟩

/-- C5: a raw category equal (ASCII case-insensitively) to one of the four
canonical labels is mapped to its capitalized canonical form, any other
value passes through unchanged, and no cleaned category is a
different-cased variant of a canonical label. -/
theorem category_canonicalization (s : Str) :
    (lowerStr s = "electronics".data
      → cleanCategory (some s) = some "Electronics".data)
    ∧ (lowerStr s = "furniture".data
      → cleanCategory (some s) = some "Furniture".data)
    ∧ (lowerStr s = "stationery".data
      → cleanCategory (some s) = some "Stationery".data)
    ∧ (lowerStr s = "office".data
      → cleanCategory (some s) = some "Office".data)
    ∧ (lowerStr s ≠ "electronics".data → lowerStr s ≠ "furniture".data
      → lowerStr s ≠ "stationery".data → lowerStr s ≠ "office".data
      → cleanCategory (some s) = some s)
    ∧ (∀ c, cleanCategory (some s) = some c
      → ∀ L ∈ ["Electronics".data, "Furniture".data,
               "Stationery".data, "Office".data],
          lowerStr c = lowerStr L → c = L) := by
  refine ⟨fun h1 => ?_, fun h2 => ?_, fun h3 => ?_, fun h4 => ?_,
    fun n1 n2 n3 n4 => ?_, ?_⟩
  · simp [cleanCategory, h1]
  · have h1 : lowerStr s ≠ "electronics".data := by
      intro e
      rw [e] at h2
      revert h2
      decide
    simp [cleanCategory, h1, h2]
  · have h1 : lowerStr s ≠ "electronics".data := by
      intro e
      rw [e] at h3
      revert h3
      decide
    have h2 : lowerStr s ≠ "furniture".data := by
      intro e
      rw [e] at h3
      revert h3
      decide
    simp [cleanCategory, h1, h2, h3]
  · have h1 : lowerStr s ≠ "electronics".data := by
      intro e
      rw [e] at h4
      revert h4
      decide
    have h2 : lowerStr s ≠ "furniture".data := by
      intro e
      rw [e] at h4
      revert h4
      decide
    have h3 : lowerStr s ≠ "stationery".data := by
      intro e
      rw [e] at h4
      revert h4
      decide
    simp [cleanCategory, h1, h2, h3, h4]
  · simp [cleanCategory, n1, n2, n3, n4]
  · intro c hc L hL hlow
    simp only [List.mem_cons, List.not_mem_nil, or_false] at hL
    simp only [cleanCategory] at hc
    by_cases h1 : lowerStr s = "electronics".data
    · rw [if_pos h1] at hc
      have hce : c = "Electronics".data := (Option.some.inj hc).symm
      subst hce
      rcases hL with rfl | rfl | rfl | rfl
      · rfl
      · revert hlow; decide
      · revert hlow; decide
      · revert hlow; decide
    · rw [if_neg h1] at hc
      by_cases h2 : lowerStr s = "furniture".data
      · rw [if_pos h2] at hc
        have hce : c = "Furniture".data := (Option.some.inj hc).symm
        subst hce
        rcases hL with rfl | rfl | rfl | rfl
        · revert hlow; decide
        · rfl
        · revert hlow; decide
        · revert hlow; decide
      · rw [if_neg h2] at hc
        by_cases h3 : lowerStr s = "stationery".data
        · rw [if_pos h3] at hc
          have hce : c = "Stationery".data := (Option.some.inj hc).symm
          subst hce
          rcases hL with rfl | rfl | rfl | rfl
          · revert hlow; decide
          · revert hlow; decide
          · rfl
          · revert hlow; decide
        · rw [if_neg h3] at hc
          by_cases h4 : lowerStr s = "office".data
          · rw [if_pos h4] at hc
            have hce : c = "Office".data := (Option.some.inj hc).symm
            subst hce
            rcases hL with rfl | rfl | rfl | rfl
            · revert hlow; decide
            · revert hlow; decide
            · revert hlow; decide
            · rfl
          · rw [if_neg h4] at hc
            have hcs : c = s := (Option.some.inj hc).symm
            subst hcs
            rcases hL with rfl | rfl | rfl | rfl
            · have he : lowerStr "Electronics".data = "electronics".data := by decide
              exact absurd (hlow.trans he) h1
            · have he : lowerStr "Furniture".data = "furniture".data := by decide
              exact absurd (hlow.trans he) h2
            · have he : lowerStr "Stationery".data = "stationery".data := by decide
              exact absurd (hlow.trans he) h3
            · have he : lowerStr "Office".data = "office".data := by decide
              exact absurd (hlow.trans he) h4

/-- C5 (witness): the canonicalization rule on two concrete categories. -/
theorem category_canonicalization_witness :
    cleanCategory (some "ELECTRONICS".data) = some "Electronics".data
    ∧ cleanCategory (some "Shoes".data) = some "Shoes".data :=
  ⟨(category_canonicalization "ELECTRONICS".data).1 (by decide),
    (category_canonicalization "Shoes".data).2.2.2.2.1
      (by decide) (by decide) (by decide) (by decide)⟩

/-- C6: the product view keeps at most ten rows and is sorted by descending
revenue. -/
theorem product_view_top10_sorted (ct : List CleanedRow) :
    (productView ct).length ≤ 10
    ∧ (productView ct).Pairwise (fun a b : ProductRow => b.revenue ≤ a.revenue) := by
  constructor
  · unfold productView
    simp [List.length_take_le]
  · unfold productView
    apply List.Pairwise.sublist (List.take_sublist _ _)
    exact List.sorted_insertionSort (descBy fun r : ProductRow => r.revenue) _

/-- C7: for a non-empty cleaned table produced by the Cleaner, the summary
revenue equals the sum of the category-view revenues and the sum of the
regional-view revenues — exactly, because per-row amounts are already
multiples of 1/100, so the independent per-group and total roundings are
all identities. -/
theorem summary_revenue_consistency (raws : List RawRow) (h : raws ≠ []) :
    (summaryView (raws.map cleanRow)).total_revenue
        = some (((categoryView (raws.map cleanRow)).map
            fun r => r.total_revenue).sum)
    ∧ (summaryView (raws.map cleanRow)).total_revenue
        = some (((regionalView (raws.map cleanRow)).map
            fun r => r.total_revenue).sum) := by
  have hcent : ∀ r ∈ raws.map cleanRow, centQ r.total_amount := by
    intro r hr
    rcases List.mem_map.mp hr with ⟨a, _, rfl⟩
    exact centQ_round2 _
  have hsum : (summaryView (raws.map cleanRow)).total_revenue
      = some (sumBy (fun r => r.total_amount) (raws.map cleanRow)) := by
    obtain ⟨a, l, rfl⟩ := List.exists_cons_of_ne_nil h
    have he : (summaryView ((a :: l).map cleanRow)).total_revenue
        = some (round2 (sumBy (fun r => r.total_amount) ((a :: l).map cleanRow))) := rfl
    rw [he, round2_of_centQ (centQ_sumBy ?_)]
    intro r hr
    rcases List.mem_map.mp hr with ⟨b, _, rfl⟩
    exact centQ_round2 _
  exact ⟨by rw [hsum, categoryView_revenue_sum _ hcent],
    by rw [hsum, regionalView_revenue_sum _ hcent]⟩

/-- C7 (witness): the revenue consistency instantiated on a one-row table. -/
theorem summary_revenue_consistency_witness :
    (summaryView ([baseRaw].map cleanRow)).total_revenue
        = some (((categoryView ([baseRaw].map cleanRow)).map
            fun r => r.total_revenue).sum)
    ∧ (summaryView ([baseRaw].map cleanRow)).total_revenue
        = some (((regionalView ([baseRaw].map cleanRow)).map
            fun r => r.total_revenue).sum) :=
  summary_revenue_consistency [baseRaw] (by decide)

/-- C8: one full run replaces the raw table and rebuilds the cleaned table
from it, so the run outcome (written document and final status) depends on
the source rows only — two runs on the same source give identical outcomes
whatever store state either run starts from. -/
theorem pipeline_output_store_independent (src : List RawRow) (s₁ s₂ : Store) :
    main_run src s₁ = main_run src s₂ :=
  rfl

/-- C9: the `customer_name` sentinel test is an exact comparison made before
trimming — a name that trims to `NULL` but is not exactly `NULL` is kept
(trimmed), and in particular `"  NULL  "` cleans to the literal `NULL`. -/
theorem customer_name_sentinel_before_trim (r : RawRow) (s : Str)
    (h : r.customer_name = some s) :
    (s ≠ "NULL".data → (cleanRow r).customer_name = trimStr s)
    ∧ (s = "NULL".data → (cleanRow r).customer_name = "Unknown Customer".data)
    ∧ (s = "  NULL  ".data → (cleanRow r).customer_name = "NULL".data) := by
  have hc : (cleanRow r).customer_name = cleanCustomerName r.customer_name := rfl
  rw [hc, h]
  refine ⟨fun hne => ?_, fun he => ?_, fun he => ?_⟩
  · simp [cleanCustomerName, hne]
  · simp [cleanCustomerName, he]
  · subst he
    decide

/-- C9 (witness): the space-surrounded sentinel on a concrete row. -/
theorem customer_name_sentinel_before_trim_witness :
    (cleanRow rowSpacedNull).customer_name = "NULL".data :=
  (customer_name_sentinel_before_trim rowSpacedNull "  NULL  ".data rfl).2.2 rfl

/-- C10: a raw row with a `NULL` category keeps a `NULL` category after
cleaning — the `CASE` comparisons are all unknown on `NULL` and the `ELSE`
branch passes the `NULL` through. -/
theorem null_category_passthrough (r : RawRow) (h : r.category = none) :
    (cleanRow r).category = none := by
  have hc : (cleanRow r).category = cleanCategory r.category := rfl
  rw [hc, h]
  rfl

/-- C10 (witness): the `NULL` category passthrough on a concrete row. -/
theorem null_category_passthrough_witness :
    (cleanRow rowNullCategory).category = none :=
  null_category_passthrough rowNullCategory rfl

end RetailSales
